import Mathlib

/-!
Verification development for the per-request proxy engine in
`pkg/proxy/downstream.go` (the `activeStream` state machine).

The Go code is shallowly embedded as pure Lean functions over an
`ActiveStream` state record.  Side effects observable to the outside world
(frames handed to the upstream or downstream codec, stream resets, timer
starts/stops, access-log emission, stream deletion) are collected in an
event trace.  A Go nil-pointer dereference (panic) is modelled by the
function returning `none` for the resulting state; the trace collected up
to the panic is kept.

External collaborators whose code lives outside this package (router,
cluster manager, connection pools, filter chains, retry state, timers,
upstream request internals) are modelled as oracle fields of the state or
as small spec-modelled helpers, each marked in its doc comment.
-/

namespace Mosn

/-- Request/response headers.  Go uses `map[string]string`; we use an
association list with a set-or-replace update, which is all the engine
needs. -/
abbrev Headers := List (String × String)

/-- `headers[k] = v` on a Go map: replace the binding if present, else add. -/
def setHdr (h : Headers) (k v : String) : Headers :=
  if h.any (fun p => p.fst = k) then
    h.map (fun p => if p.fst = k then (k, v) else p)
  else
    (k, v) :: h

/-- Map lookup. -/
def getHdr (h : Headers) (k : String) : Option String :=
  (h.find? (fun p => p.fst = k)).map (fun p => p.snd)

/-- `types.IoBuffer`: a byte buffer.  The `id` models object identity
(Go pointer identity), so that clones (fresh `id`, same `content`) are
distinguishable from the original buffer. -/
structure IoBuffer where
  id : Nat
  content : List Nat
  deriving Repr, DecidableEq

/-- `types.StreamResetReason` (subset used by this file). -/
inductive ResetReason where
  | LocalReset
  | ConnectionFailure
  | ConnectionTermination
  deriving Repr, DecidableEq

/-- `UpstreamResetType` (defined in a sibling file of the package). -/
inductive UpstreamResetType where
  | UpstreamGlobalTimeout
  | UpstreamPerTryTimeout
  | UpstreamConnectionFailure
  | UpstreamConnectionTermination
  deriving Repr, DecidableEq

/-- `types.ResponseFlag` (subset used by this file). -/
inductive ResponseFlag where
  | NoRouteFound
  | NoHealthyUpstream
  | UpstreamRequestTimeout
  | UpstreamOverflow
  | UpstreamConnectionFailureFlag
  | UpstreamConnectionTerminationFlag
  | UpstreamLocalResetFlag
  deriving Repr, DecidableEq

/-- Modelled from the spec: `streamResetReasonToResponseFlag` lives in the
proxy file outside `src/`; it maps a reset reason to a response flag for
logging.  The exact mapping is not load-bearing for any claim. -/
def resetReasonToFlag : ResetReason → ResponseFlag
  | ResetReason.LocalReset => ResponseFlag.UpstreamLocalResetFlag
  | ResetReason.ConnectionFailure => ResponseFlag.UpstreamConnectionFailureFlag
  | ResetReason.ConnectionTermination => ResponseFlag.UpstreamConnectionTerminationFlag

/-- `types.RetryCheckStatus`. -/
inductive RetryCheck where
  | NoRetry
  | ShouldRetry
  | RetryOverflow
  deriving Repr, DecidableEq

/-- Modelled from the spec: `retryState` is defined outside `src/`.
`retryOn` means "a retry is possible given what we have buffered";
`backoffTimer` is the pending back-off timer handle; `verdict` is an
oracle for the result of the next `retry(...)` call (status-based or
reason-based rules live outside the covered source). -/
structure RetryStateM where
  retryOn : Bool
  backoffTimer : Option Nat
  verdict : RetryCheck
  deriving Repr, DecidableEq

/-- `upstreamRequest` (file outside `src/`): only the `requestEncoder`
field is touched by the covered source. -/
structure UpstreamReqM where
  requestEncoder : Option Nat
  deriving Repr, DecidableEq

/-- `ProxyTimeout` produced by `parseProxyTimeout`. -/
structure ProxyTimeout where
  TryTimeout : Nat
  GlobalTimeout : Nat
  deriving Repr, DecidableEq

/-- `route.RouteRule()` — only the cluster name is consumed here. -/
structure RouteRule where
  clusterName : String
  deriving Repr, DecidableEq

/-- Externally observable effects of the engine. -/
inductive Event where
  | upEncodeHeaders (headers : Headers) (es : Bool)
  | upEncodeData (data : IoBuffer) (es : Bool)
  | upEncodeTrailers (trailers : Headers)
  | upResetStream
  | urAlloc
  | downEncodeHeaders (headers : Headers) (es : Bool)
  | downEncodeData (data : IoBuffer) (es : Bool)
  | downEncodeTrailers (trailers : Headers)
  | downResetStream (reason : ResetReason)
  | timerStop (id : Nat)
  | timerStart (id : Nat) (dur : Nat)
  | retryScheduled
  | accessLog
  | streamDeleted
  deriving Repr, DecidableEq

/-- Events that send request material to (or allocate an attempt at) the
upstream: `urAlloc` models `s.upstreamRequest = &upstreamRequest{...}`,
the `upEncode*` events model calls into the upstream encoder. -/
def Event.isUpstreamAttempt : Event → Bool
  | Event.upEncodeHeaders _ _ => true
  | Event.upEncodeData _ _ => true
  | Event.upEncodeTrailers _ => true
  | Event.urAlloc => true
  | _ => false

/-- The `activeStream` struct of `downstream.go`, restricted to the fields
the covered source reads or writes, plus oracle fields (suffix `O`) for
external collaborators:
`routeO` is the router's answer (`none` covers both a nil route and a nil
route rule), `clusterSnapshotO` the cluster manager snapshot,
`connPoolO` the connection pool, `timeoutO` / `retryStateO` the results of
`parseProxyTimeout` / `newRetryState`, and the `*FiltersStop` fields the
verdicts of the filter chains (`true` = the chain stopped traversal). -/
structure ActiveStream where
  routeO : Option RouteRule := none
  clusterSnapshotO : Option String := none
  connPoolO : Option Nat := none
  timeoutO : ProxyTimeout := ⟨0, 0⟩
  retryStateO : Option RetryStateM := none
  decodeHeaderFiltersStop : Bool := false
  decodeDataFiltersStop : Bool := false
  decodeTrailersFiltersStop : Bool := false
  encodeHeaderFiltersStop : Bool := false
  encodeDataFiltersStop : Bool := false
  encodeTrailersFiltersStop : Bool := false
  route : Option RouteRule := none
  cluster : Option String := none
  timeout : ProxyTimeout := ⟨0, 0⟩
  retryState : Option RetryStateM := none
  responseEncoder : Option Nat := none
  upstreamRequest : Option UpstreamReqM := none
  perRetryTimer : Option Nat := none
  responseTimer : Option Nat := none
  downstreamReqHeaders : Headers := []
  downstreamReqDataBuf : Option IoBuffer := none
  downstreamReqTrailers : Option Headers := none
  downstreamRespHeaders : Option Headers := none
  downstreamResponseStarted : Bool := false
  upstreamRequestSent : Bool := false
  downstreamRecvDone : Bool := false
  localProcessDone : Bool := false
  bytesReceived : Nat := 0
  bytesSent : Nat := 0
  responseFlags : List ResponseFlag := []
  freshId : Nat := 100
  deriving Repr, DecidableEq

/-- Result of running a piece of the engine: the emitted events and the
resulting state, `none` when the Go code would panic on a nil
dereference. -/
abbrev Res := List Event × Option ActiveStream

/-- Prepend already-emitted events to a result. -/
def mergeEv (ev : List Event) (r : Res) : Res := (ev ++ r.fst, r.snd)

/-- Sequence: run `f` on the state unless a panic already occurred. -/
def thenRes (r : Res) (f : ActiveStream → Res) : Res :=
  match r with
  | (ev, some s) => mergeEv ev (f s)
  | (ev, none) => (ev, none)

/-- `s.requestInfo.SetResponseFlag(flag)`. -/
def ActiveStream.setFlag (s : ActiveStream) (f : ResponseFlag) : ActiveStream :=
  { s with responseFlags := f :: s.responseFlags }

/-- External synthetic status-code vocabulary (`types` package, outside
`src/`); values are placeholders, only the names are load-bearing. -/
def RouterUnavailableCode : Nat := 404

/-- External status code: no pool or unrecoverable reset. -/
def NoHealthUpstreamCode : Nat := 502

/-- External status code: codec framing error. -/
def CodecExceptionCode : Nat := 470

/-- External status code: deserialize error. -/
def DeserialExceptionCode : Nat := 471

/-- External status code: unknown decode error. -/
def UnknownCode : Nat := 472

/-- External status code: request timeout. -/
def TimeoutExceptionCode : Nat := 504

/-- `types.HeaderStatus`: the codec's status header name (external). -/
def HeaderStatus : String := "x-mosn-header-status"

/-- `types.CodecException` error text (external constant). -/
def CodecException : String := "codec exception"

/-- `types.DeserializeException` error text (external constant). -/
def DeserializeException : String := "deserialize exception"

/-- Modelled from the spec: `retryState.reset()` is outside `src/`; per
§4.7 it "clears pending back-off timers; invalidates scheduled
callbacks". -/
def RetryStateM.reset (rs : RetryStateM) : List Event × RetryStateM :=
  match rs.backoffTimer with
  | some t => ([Event.timerStop t], { rs with backoffTimer := none })
  | none => ([], rs)

/-- Modelled from the spec: `retryState.retry(...)` is outside `src/`; per
§4.7 it returns a verdict and, on `ShouldRetry`, schedules the resume
function after a back-off.  The verdict comes from the `verdict` oracle. -/
def RetryStateM.retry (rs : RetryStateM) : List Event × RetryCheck :=
  match rs.verdict with
  | RetryCheck.ShouldRetry => ([Event.retryScheduled], RetryCheck.ShouldRetry)
  | v => ([], v)

/-- `func (s *activeStream) cleanUp()`: nils the upstream request's
encoder, resets the retry state, stops and nils both timers.  Both
`s.upstreamRequest.requestEncoder = nil` and `s.retryState.reset()` are
unguarded dereferences: either field being nil is a panic (`none`). -/
def ActiveStream.cleanUp (s : ActiveStream) : Res :=
  match s.upstreamRequest, s.retryState with
  | some ur, some rs =>
    let s1 := { s with upstreamRequest := some { ur with requestEncoder := none } }
    let (ev1, rs2) := rs.reset
    let s2 := { s1 with retryState := some rs2 }
    let (ev2, s3) :=
      match s2.perRetryTimer with
      | some t => ([Event.timerStop t], { s2 with perRetryTimer := none })
      | none => ([], s2)
    let (ev3, s4) :=
      match s3.responseTimer with
      | some t => ([Event.timerStop t], { s3 with responseTimer := none })
      | none => ([], s3)
    (ev1 ++ ev2 ++ ev3, some s4)
  | _, _ => ([], none)

/-- `func (s *activeStream) cleanStream()`: resets a live upstream
request, runs `cleanUp`, notifies filters, writes the access log, and
removes the stream from the proxy's active set (the last three are
trace events here; filter destruction and stats are unobservable). -/
def ActiveStream.cleanStream (s : ActiveStream) : Res :=
  let ev0 : List Event :=
    match s.upstreamRequest with
    | some _ => [Event.upResetStream]
    | none => []
  match s.cleanUp with
  | (ev1, some s1) => (ev0 ++ ev1 ++ [Event.accessLog, Event.streamDeleted], some s1)
  | (ev1, none) => (ev0 ++ ev1, none)

/-- `func (s *activeStream) endStream()`: abnormal end (downstream recv or
local processing unfinished, with a response encoder present) marks
`localProcessDone` and resets the downstream stream with `LocalReset`;
otherwise `cleanStream` runs.  The downstream reset is a trace event: the
subsequent cleanup happens through the codec's `OnResetStream` callback,
not by a direct call. -/
def ActiveStream.endStream (s : ActiveStream) : Res :=
  match s.responseEncoder with
  | some _ =>
    if !s.downstreamRecvDone || !s.localProcessDone then
      ([Event.downResetStream ResetReason.LocalReset],
        some { s with localProcessDone := true })
    else
      s.cleanStream
  | none => s.cleanStream

/-- `func (s *activeStream) doEncodeHeaders(...)`: encoder filter chain,
then the downstream codec's `EncodeHeaders`, then `endStream` when the
response ends here. -/
def ActiveStream.doEncodeHeaders (s : ActiveStream) (headers : Headers) (es : Bool) : Res :=
  if s.encodeHeaderFiltersStop then ([], some s)
  else
    match s.responseEncoder with
    | none => ([], none)
    | some _ =>
      if es then
        mergeEv [Event.downEncodeHeaders headers es] s.endStream
      else
        ([Event.downEncodeHeaders headers es], some s)

/-- `func (s *activeStream) encodeHeaders(...)`. -/
def ActiveStream.encodeHeaders (s : ActiveStream) (headers : Headers) (es : Bool) : Res :=
  ActiveStream.doEncodeHeaders { s with localProcessDone := es } headers es

/-- `func (s *activeStream) doEncodeData(...)`. -/
def ActiveStream.doEncodeData (s : ActiveStream) (data : IoBuffer) (es : Bool) : Res :=
  if s.encodeDataFiltersStop then ([], some s)
  else
    match s.responseEncoder with
    | none => ([], none)
    | some _ =>
      let s1 := { s with bytesSent := s.bytesSent + data.content.length }
      if es then
        mergeEv [Event.downEncodeData data es] s1.endStream
      else
        ([Event.downEncodeData data es], some s1)

/-- `func (s *activeStream) encodeData(...)`. -/
def ActiveStream.encodeData (s : ActiveStream) (data : IoBuffer) (es : Bool) : Res :=
  ActiveStream.doEncodeData { s with localProcessDone := es } data es

/-- `func (s *activeStream) doEncodeTrailers(...)`. -/
def ActiveStream.doEncodeTrailers (s : ActiveStream) (trailers : Headers) : Res :=
  if s.encodeTrailersFiltersStop then ([], some s)
  else
    match s.responseEncoder with
    | none => ([], none)
    | some _ => mergeEv [Event.downEncodeTrailers trailers] s.endStream

/-- `func (s *activeStream) encodeTrailers(...)`. -/
def ActiveStream.encodeTrailers (s : ActiveStream) (trailers : Headers) : Res :=
  ActiveStream.doEncodeTrailers { s with localProcessDone := true } trailers

/-- `func (s *activeStream) sendHijackReply(code, headers)`: writes the
status code into the headers and encodes them downstream with
`endStream = true`. -/
def ActiveStream.sendHijackReply (s : ActiveStream) (code : Nat) (headers : Headers) : Res :=
  s.encodeHeaders (setHdr headers HeaderStatus (toString code)) true

/-- `func (s *activeStream) initializeUpstreamConnectionPool(...)`: null
cluster snapshot hijacks with `RouterUnavailableCode` (flag
`NoRouteFound`), null pool hijacks with `NoHealthUpstreamCode` (flag
`NoHealthyUpstream`).  The protocol-family switch only selects which pool
method to ask; the pool itself is the `connPoolO` oracle.  Returns the
pool (`none` = error) alongside the state. -/
def ActiveStream.initUpstreamConnectionPool (s : ActiveStream) (_clusterName : String) :
    List Event × Option (ActiveStream × Option Nat) :=
  match s.clusterSnapshotO with
  | none =>
    let s1 := s.setFlag ResponseFlag.NoRouteFound
    let (ev, o) := s1.sendHijackReply RouterUnavailableCode s1.downstreamReqHeaders
    (ev, o.map (fun s2 => (s2, none)))
  | some info =>
    let s1 := { s with cluster := some info }
    match s1.connPoolO with
    | none =>
      let s2 := s1.setFlag ResponseFlag.NoHealthyUpstream
      let (ev, o) := s2.sendHijackReply NoHealthUpstreamCode s2.downstreamReqHeaders
      (ev, o.map (fun s3 => (s3, none)))
    | some pool => ([], some (s1, some pool))

/-- `func (s *activeStream) setupPerTryTimeout()`: when the route carries
a per-try bound, stop any previous per-try timer and arm a fresh one
(timer handles are allocated from the `freshId` counter). -/
def ActiveStream.setupPerTryTimeout (s : ActiveStream) : List Event × ActiveStream :=
  if s.timeout.TryTimeout > 0 then
    let ev0 : List Event :=
      match s.perRetryTimer with
      | some t => [Event.timerStop t]
      | none => []
    (ev0 ++ [Event.timerStart s.freshId s.timeout.TryTimeout],
      { s with perRetryTimer := some s.freshId, freshId := s.freshId + 1 })
  else ([], s)

/-- `func (s *activeStream) onUpstreamRequestSent()`: marks the request
sent, rearms the per-try timer, and starts the global timer when
configured. -/
def ActiveStream.onUpstreamRequestSent (s : ActiveStream) : List Event × ActiveStream :=
  let s1 := { s with upstreamRequestSent := true }
  match s1.upstreamRequest with
  | none => ([], s1)
  | some _ =>
    let (ev1, s2) := s1.setupPerTryTimeout
    if s2.timeout.GlobalTimeout > 0 then
      let ev2 : List Event :=
        match s2.responseTimer with
        | some t => [Event.timerStop t]
        | none => []
      (ev1 ++ ev2 ++ [Event.timerStart s2.freshId s2.timeout.GlobalTimeout],
        { s2 with responseTimer := some s2.freshId, freshId := s2.freshId + 1 })
    else (ev1, s2)

/-- `func (s *activeStream) doDecodeHeaders(...)`: decode filter chain,
route lookup (nil route or nil rule hijacks with
`RouterUnavailableCode`), pool acquisition, timeout/retry-state
construction, upstream request allocation, header encode, and the
request-sent transition when the request ended at the headers. -/
def ActiveStream.doDecodeHeaders (s : ActiveStream) (headers : Headers) (es : Bool) : Res :=
  if s.decodeHeaderFiltersStop then ([], some s)
  else
    match s.routeO with
    | none =>
      let s1 := s.setFlag ResponseFlag.NoRouteFound
      s1.sendHijackReply RouterUnavailableCode headers
    | some rule =>
      let s1 := { s with route := some rule }
      match s1.initUpstreamConnectionPool rule.clusterName with
      | (ev, none) => (ev, none)
      | (ev, some (s2, none)) => (ev, some s2)
      | (ev, some (s2, some _pool)) =>
        let s3 := { s2 with timeout := s2.timeoutO, retryState := s2.retryStateO }
        let s4 := { s3 with upstreamRequest := some { requestEncoder := none } }
        let ev2 := [Event.urAlloc, Event.upEncodeHeaders headers es]
        if es then
          let (ev3, s5) := s4.onUpstreamRequestSent
          (ev ++ ev2 ++ ev3, some s5)
        else
          (ev ++ ev2, some s4)

/-- `func (s *activeStream) OnDecodeHeaders(...)`. -/
def ActiveStream.OnDecodeHeaders (s : ActiveStream) (headers : Headers) (es : Bool) : Res :=
  ActiveStream.doDecodeHeaders
    { s with downstreamRecvDone := es, downstreamReqHeaders := headers } headers es

/-- `func (s *activeStream) doDecodeData(...)`: drops the event when local
processing is done; otherwise runs the decode data filters, marks the
request sent on `endStream`, and either (retry possible) accumulates the
data into `downstreamReqDataBuf` and forwards a clone, or (no retry)
forwards the original buffer.  The clone is taken before the buffer is
drained into the accumulator, exactly as in the source. -/
def ActiveStream.doDecodeData (s : ActiveStream) (data : IoBuffer) (es : Bool) : Res :=
  if s.localProcessDone then ([], some s)
  else if s.decodeDataFiltersStop then ([], some s)
  else
    let shouldBufData : Bool :=
      match s.retryState with
      | some rs => rs.retryOn
      | none => false
    let (ev1, s1) := if es then s.onUpstreamRequestSent else ([], s)
    if shouldBufData then
      let copied : IoBuffer := ⟨s1.freshId, data.content⟩
      let s2 := { s1 with freshId := s1.freshId + 1 }
      let s3 :=
        match s2.downstreamReqDataBuf with
        | some buf =>
          if buf.id ≠ data.id then
            { s2 with downstreamReqDataBuf := some ⟨buf.id, buf.content ++ data.content⟩ }
          else s2
        | none =>
          { s2 with downstreamReqDataBuf := some ⟨s2.freshId, data.content⟩,
                    freshId := s2.freshId + 1 }
      match s3.upstreamRequest with
      | none => (ev1, none)
      | some _ => (ev1 ++ [Event.upEncodeData copied es], some s3)
    else
      match s1.upstreamRequest with
      | none => (ev1, none)
      | some _ => (ev1 ++ [Event.upEncodeData data es], some s1)

/-- `func (s *activeStream) OnDecodeData(...)`. -/
def ActiveStream.OnDecodeData (s : ActiveStream) (data : IoBuffer) (es : Bool) : Res :=
  ActiveStream.doDecodeData
    { s with bytesReceived := s.bytesReceived + data.content.length,
             downstreamRecvDone := es } data es

/-- `func (s *activeStream) doDecodeTrailers(...)`. -/
def ActiveStream.doDecodeTrailers (s : ActiveStream) (trailers : Headers) : Res :=
  if s.localProcessDone then ([], some s)
  else if s.decodeTrailersFiltersStop then ([], some s)
  else
    let s1 := { s with downstreamReqTrailers := some trailers }
    let (ev1, s2) := s1.onUpstreamRequestSent
    match s2.upstreamRequest with
    | none => (ev1, none)
    | some _ => (ev1 ++ [Event.upEncodeTrailers trailers], some s2)

/-- `func (s *activeStream) OnDecodeTrailers(...)`. -/
def ActiveStream.OnDecodeTrailers (s : ActiveStream) (trailers : Headers) : Res :=
  ActiveStream.doDecodeTrailers { s with downstreamRecvDone := true } trailers

/-- `func (s *activeStream) OnDecodeError(err, headers)`: maps the error
text to a hijack status code; never touches the upstream. -/
def ActiveStream.OnDecodeError (s : ActiveStream) (err : String) (headers : Headers) : Res :=
  if err = CodecException then s.sendHijackReply CodecExceptionCode headers
  else if err = DeserializeException then s.sendHijackReply DeserialExceptionCode headers
  else s.sendHijackReply UnknownCode headers

/-- `func (s *activeStream) setupRetry(endStream)`: returns false when the
request was never sent; otherwise resets the still-live upstream stream
(`!endStream`, an unguarded dereference of `upstreamRequest`), nils
`upstreamRequest`, and returns true. -/
def ActiveStream.setupRetry (s : ActiveStream) (es : Bool) : List Event × Option (Bool × ActiveStream) :=
  if !s.upstreamRequestSent then ([], some (false, s))
  else
    if !es then
      match s.upstreamRequest with
      | none => ([], none)
      | some _ => ([Event.upResetStream], some (true, { s with upstreamRequest := none }))
    else
      ([], some (true, { s with upstreamRequest := none }))

/-- `func (s *activeStream) onUpstreamResponseRecvFinished()`: resets the
upstream stream when the request was never fully sent, then `cleanUp`. -/
def ActiveStream.onUpstreamResponseRecvFinished (s : ActiveStream) : Res :=
  if !s.upstreamRequestSent then
    match s.upstreamRequest with
    | none => ([], none)
    | some _ => mergeEv [Event.upResetStream] s.cleanUp
  else s.cleanUp

/-- `func (s *activeStream) onUpstreamHeaders(...)`: retry gate (verdict
from the retry state; `setupRetry` aborts processing when it returns
true), then the response is marked started and encoded downstream. -/
def ActiveStream.onUpstreamHeaders (s : ActiveStream) (headers : Headers) (es : Bool) : Res :=
  let s0 := { s with downstreamRespHeaders := some headers }
  let afterGate : ActiveStream → Res := fun s1 =>
    let s2 := { s1 with downstreamResponseStarted := true }
    let r : Res :=
      if es then thenRes s2.onUpstreamResponseRecvFinished (fun s3 => s3.encodeHeaders headers es)
      else s2.encodeHeaders headers es
    r
  match s0.retryState with
  | some rs =>
    let (evr, check) := rs.retry
    match check with
    | RetryCheck.ShouldRetry =>
      match s0.setupRetry es with
      | (ev2, none) => (evr ++ ev2, none)
      | (ev2, some (true, s1)) => (evr ++ ev2, some s1)
      | (ev2, some (false, s1)) =>
        let (ev3, rs2) := rs.reset
        mergeEv (evr ++ ev2 ++ ev3) (afterGate { s1 with retryState := some rs2 })
    | RetryCheck.RetryOverflow =>
      let s1 := s0.setFlag ResponseFlag.UpstreamOverflow
      let (ev3, rs2) := rs.reset
      mergeEv (evr ++ ev3) (afterGate { s1 with retryState := some rs2 })
    | RetryCheck.NoRetry =>
      let (ev3, rs2) := rs.reset
      mergeEv (evr ++ ev3) (afterGate { s0 with retryState := some rs2 })
  | none => afterGate s0

/-- `func (s *activeStream) onUpstreamData(...)`. -/
def ActiveStream.onUpstreamData (s : ActiveStream) (data : IoBuffer) (es : Bool) : Res :=
  if es then
    thenRes s.onUpstreamResponseRecvFinished (fun s1 => s1.encodeData data es)
  else
    s.encodeData data es

/-- `func (s *activeStream) onUpstreamTrailers(...)`. -/
def ActiveStream.onUpstreamTrailers (s : ActiveStream) (trailers : Headers) : Res :=
  thenRes s.onUpstreamResponseRecvFinished (fun s1 => s1.encodeTrailers trailers)

/-- `func (s *activeStream) resetStream()`. -/
def ActiveStream.resetStream (s : ActiveStream) : Res :=
  s.endStream

/-- The code of `onUpstreamReset` after the retry gate: `cleanUp`, then
either a downstream reset (response already started) or a synthetic
hijack (timeout code for the timeout kinds, `NoHealthUpstreamCode` plus
the mapped reason flag otherwise). -/
def ActiveStream.onUpstreamResetTail (s : ActiveStream) (urtype : UpstreamResetType)
    (reason : ResetReason) : Res :=
  match s.cleanUp with
  | (ev, none) => (ev, none)
  | (ev, some s1) =>
    if s1.downstreamResponseStarted then
      mergeEv ev s1.resetStream
    else
      if urtype = UpstreamResetType.UpstreamGlobalTimeout ∨
         urtype = UpstreamResetType.UpstreamPerTryTimeout then
        let s2 := s1.setFlag ResponseFlag.UpstreamRequestTimeout
        mergeEv ev (s2.sendHijackReply TimeoutExceptionCode s2.downstreamReqHeaders)
      else
        let s2 := s1.setFlag (resetReasonToFlag reason)
        mergeEv ev (s2.sendHijackReply NoHealthUpstreamCode s2.downstreamReqHeaders)

/-- `func (s *activeStream) onUpstreamReset(urtype, reason)`: the retry
gate runs when the reset is not a global timeout, the downstream response
has started, and a retry state exists; `ShouldRetry` plus a successful
`setupRetry(true)` returns immediately, `RetryOverflow` stamps the flag
and falls through to the tail. -/
def ActiveStream.onUpstreamReset (s : ActiveStream) (urtype : UpstreamResetType)
    (reason : ResetReason) : Res :=
  if urtype ≠ UpstreamResetType.UpstreamGlobalTimeout ∧ s.downstreamResponseStarted then
    match s.retryState with
    | some rs =>
      let (evr, check) := rs.retry
      match check with
      | RetryCheck.ShouldRetry =>
        match s.setupRetry true with
        | (ev2, none) => (evr ++ ev2, none)
        | (ev2, some (true, s1)) => (evr ++ ev2, some s1)
        | (ev2, some (false, s1)) => mergeEv (evr ++ ev2) (s1.onUpstreamResetTail urtype reason)
      | RetryCheck.RetryOverflow =>
        mergeEv evr ((s.setFlag ResponseFlag.UpstreamOverflow).onUpstreamResetTail urtype reason)
      | RetryCheck.NoRetry => mergeEv evr (s.onUpstreamResetTail urtype reason)
    | none => s.onUpstreamResetTail urtype reason
  else s.onUpstreamResetTail urtype reason

/-- `func (s *activeStream) onResponseTimeout()`: nils the global timer,
bumps cluster stats (an unguarded dereference of `cluster`), resets a
live upstream stream behind a nil guard, and reports a global-timeout
upstream reset. -/
def ActiveStream.onResponseTimeout (s : ActiveStream) : Res :=
  let s1 := { s with responseTimer := none }
  match s1.cluster with
  | none => ([], none)
  | some _ =>
    let ev : List Event :=
      match s1.upstreamRequest with
      | some _ => [Event.upResetStream]
      | none => []
    mergeEv ev (s1.onUpstreamReset UpstreamResetType.UpstreamGlobalTimeout ResetReason.LocalReset)

/-- `func (s *activeStream) onPerTryTimeout()`: skipped when the response
already started; otherwise nils the per-try timer, bumps stats
(unguarded dereferences of `cluster` and of `upstreamRequest.host`),
resets the upstream stream, stamps `UpstreamRequestTimeout`, and reports
a per-try-timeout upstream reset. -/
def ActiveStream.onPerTryTimeout (s : ActiveStream) : Res :=
  if !s.downstreamResponseStarted then
    let s1 := { s with perRetryTimer := none }
    match s1.cluster with
    | none => ([], none)
    | some _ =>
      match s1.upstreamRequest with
      | none => ([], none)
      | some _ =>
        let s2 := s1.setFlag ResponseFlag.UpstreamRequestTimeout
        mergeEv [Event.upResetStream]
          (s2.onUpstreamReset UpstreamResetType.UpstreamPerTryTimeout ResetReason.LocalReset)
  else ([], some s)

/-- `func (s *activeStream) doRetry()`: fresh pool for the same cluster
(hijack plus `cleanUp` on failure), new upstream request, header
re-encode with `endStream = (downstreamReqDataBuf != nil &&
downstreamReqTrailers != nil)` exactly as written in the source, clone
and re-encode of any buffered body, trailer re-encode, per-try rearm. -/
def ActiveStream.doRetry (s : ActiveStream) : Res :=
  match s.cluster with
  | none => ([], none)
  | some name =>
    match s.initUpstreamConnectionPool name with
    | (ev, none) => (ev, none)
    | (ev, some (s1, none)) =>
      mergeEv ev (thenRes (s1.sendHijackReply NoHealthUpstreamCode s1.downstreamReqHeaders)
        ActiveStream.cleanUp)
    | (ev, some (s1, some _pool)) =>
      let s2 := { s1 with upstreamRequest := some { requestEncoder := none } }
      let evh := [Event.urAlloc,
        Event.upEncodeHeaders s2.downstreamReqHeaders
          (s2.downstreamReqDataBuf.isSome && s2.downstreamReqTrailers.isSome)]
      let (evd, s3) :=
        match s2.downstreamReqDataBuf with
        | some buf =>
          ([Event.upEncodeData ⟨s2.freshId, buf.content⟩ s2.downstreamReqTrailers.isNone],
            { s2 with freshId := s2.freshId + 1 })
        | none => ([], s2)
      let evt : List Event :=
        match s3.downstreamReqTrailers with
        | some t => [Event.upEncodeTrailers t]
        | none => []
      let (evp, s4) := s3.setupPerTryTimeout
      (ev ++ evh ++ evd ++ evt ++ evp, some s4)

/-- `func (s *activeStream) OnResetStream(reason)`: downstream reset from
the codec terminates via `cleanStream` (stats are unobservable). -/
def ActiveStream.OnResetStream (s : ActiveStream) (_reason : ResetReason) : Res :=
  s.cleanStream

/-! ## Concrete states used by the evaluation theorems -/

/-- A retry in flight for cluster `server_1`: a fresh pool is available,
no request body was buffered, and no trailers were received. -/
def retryHdrOnly : ActiveStream :=
  { cluster := some "server_1", clusterSnapshotO := some "server_1", connPoolO := some 1,
    downstreamReqHeaders := [(":path", "/")], upstreamRequestSent := true }

/-- A retry in flight with both a buffered request body and trailers. -/
def retryBodyTrailers : ActiveStream :=
  { cluster := some "server_1", clusterSnapshotO := some "server_1", connPoolO := some 1,
    downstreamReqHeaders := [(":path", "/")], upstreamRequestSent := true,
    downstreamReqDataBuf := some ⟨5, [1, 2]⟩,
    downstreamReqTrailers := some [("t", "v")] }

/-- A stream whose response headers were already flushed downstream, with
a live upstream attempt, both timers armed, and a retry state whose next
verdict is `ShouldRetry`. -/
def resetAfterResponse : ActiveStream :=
  { downstreamResponseStarted := true, upstreamRequestSent := true,
    retryState := some { retryOn := true, backoffTimer := none,
                         verdict := RetryCheck.ShouldRetry },
    upstreamRequest := some { requestEncoder := some 5 },
    perRetryTimer := some 7, responseTimer := some 8, responseEncoder := some 0 }

/-- A fresh stream for which the router finds no route: no upstream
request and no retry state exist yet. -/
def noRouteStream : ActiveStream :=
  { routeO := none, responseEncoder := some 0 }

/-! ## Claims -/

/-- C1.  In `doRetry`, the claim says the re-encoded headers carry
`endStream = true` iff no buffered body and no trailers exist.  The code
computes `downstreamReqDataBuf != nil && downstreamReqTrailers != nil`
instead: with neither body nor trailers it re-encodes the headers with
`endStream = false` (first conjunct), and with both present it encodes
them with `endStream = true` and then sends the body and trailers after
the supposed end of stream (second conjunct). -/
theorem c1_doRetry_headers_endStream_eval :
    ActiveStream.doRetry retryHdrOnly =
      ([Event.urAlloc, Event.upEncodeHeaders [(":path", "/")] false],
        some { retryHdrOnly with upstreamRequest := some { requestEncoder := none } }) ∧
    ActiveStream.doRetry retryBodyTrailers =
      ([Event.urAlloc, Event.upEncodeHeaders [(":path", "/")] true,
        Event.upEncodeData ⟨100, [1, 2]⟩ false, Event.upEncodeTrailers [("t", "v")]],
        some { retryBodyTrailers with upstreamRequest := some { requestEncoder := none },
                                      freshId := 101 }) := by
  constructor <;> rfl

/-- C2.  An upstream connection failure arriving after the response
headers were flushed downstream (`downstreamResponseStarted = true`), with
a retry state whose verdict is `ShouldRetry`: the code consults the retry
gate exactly in this situation, schedules a retry, nulls the upstream
request, and returns — no `cleanUp`, no downstream reset, timers still
armed.  The claim says that after the response has started no retry may
be attempted and the reset must proceed straight to cleanup and a
downstream reset. -/
theorem c2_onUpstreamReset_retries_after_response_started :
    ActiveStream.onUpstreamReset resetAfterResponse
        UpstreamResetType.UpstreamConnectionFailure ResetReason.ConnectionFailure =
      ([Event.retryScheduled], some { resetAfterResponse with upstreamRequest := none }) := by
  rfl

/-- C3.  The no-route hijack path: request headers with no matching route
and `endStream = true`.  The hijack reply is encoded downstream, then
`endStream` runs `cleanStream`, whose `cleanUp` dereferences the nil
`upstreamRequest` (and nil `retryState`) — the run ends in a panic
(`none`), contradicting the claim that `cleanUp` completes without a nil
dereference on every terminal path. -/
theorem c3_cleanUp_nil_deref_on_no_route :
    ActiveStream.OnDecodeHeaders noRouteStream [("host", "10.0.0.1")] true =
      ([Event.downEncodeHeaders
          [("x-mosn-header-status", "404"), ("host", "10.0.0.1")] true], none) := by
  rfl

/-- C4.  `cleanUp` is idempotent: whenever a first call completes
(yielding state `s'` and trace `ev`), a second call is a no-op — it
emits nothing and leaves the state unchanged — and after the first call
both timer handles are nil and every timer that was armed before the
call was stopped (its stop appears in the trace). -/
theorem c4_cleanUp_idempotent (s s' : ActiveStream) (ev : List Event)
    (h : s.cleanUp = (ev, some s')) :
    s'.cleanUp = ([], some s') ∧
    s'.perRetryTimer = none ∧ s'.responseTimer = none ∧
    (∀ t, s.perRetryTimer = some t → Event.timerStop t ∈ ev) ∧
    (∀ t, s.responseTimer = some t → Event.timerStop t ∈ ev) := by
  cases hur : s.upstreamRequest with
  | none => simp [ActiveStream.cleanUp, hur] at h
  | some ur =>
    cases hrs : s.retryState with
    | none => simp [ActiveStream.cleanUp, hur, hrs] at h
    | some rs =>
      cases hbt : rs.backoffTimer <;> cases hpt : s.perRetryTimer <;>
        cases hrt : s.responseTimer <;>
      · simp only [ActiveStream.cleanUp, hur, hrs, RetryStateM.reset, hbt, hpt, hrt,
          List.nil_append, List.append_nil, List.cons_append, Prod.mk.injEq,
          Option.some.injEq] at h
        obtain ⟨hev, hs⟩ := h
        subst hs
        subst hev
        refine ⟨by simp [ActiveStream.cleanUp, RetryStateM.reset, hbt], rfl, rfl, ?_, ?_⟩ <;>
          intro t ht <;> simp_all

/-- C5.  `setupRetry(endStream)` returns true iff `upstreamRequestSent`
is true; on success it nulls `upstreamRequest`, and when the abandoned
attempt's upstream stream was still live (`endStream = false`) it resets
that stream first, so no bytes of the abandoned attempt can reach the
downstream afterwards.  (The live-stream reset dereferences
`upstreamRequest`, hence the `isSome` hypothesis in that case.) -/
theorem c5_setupRetry_spec (s : ActiveStream) (es : Bool) :
    (s.upstreamRequestSent = false → s.setupRetry es = ([], some (false, s))) ∧
    (s.upstreamRequestSent = true → es = true →
      s.setupRetry es = ([], some (true, { s with upstreamRequest := none }))) ∧
    (s.upstreamRequestSent = true → es = false → s.upstreamRequest.isSome = true →
      s.setupRetry es =
        ([Event.upResetStream], some (true, { s with upstreamRequest := none }))) := by
  refine ⟨?_, ?_, ?_⟩
  · intro h
    simp [ActiveStream.setupRetry, h]
  · intro h he
    subst he
    simp [ActiveStream.setupRetry, h]
  · intro h he hur
    subst he
    obtain ⟨u, hu⟩ := Option.isSome_iff_exists.mp hur
    simp [ActiveStream.setupRetry, h, hu]

/-- C6.  `endStream()`: with a response encoder present and either the
downstream receive or the local processing unfinished, it marks
`localProcessDone`, resets the downstream stream with `LocalReset`, and
does not run `cleanStream` directly (the only emitted event is the
downstream reset, cleanup then happens through the reset callback); in
every other case it runs `cleanStream`. -/
theorem c6_endStream_spec (s : ActiveStream) :
    (s.responseEncoder.isSome = true →
      (s.downstreamRecvDone = false ∨ s.localProcessDone = false) →
      s.endStream = ([Event.downResetStream ResetReason.LocalReset],
        some { s with localProcessDone := true })) ∧
    ((s.responseEncoder = none ∨ (s.downstreamRecvDone = true ∧ s.localProcessDone = true)) →
      s.endStream = s.cleanStream) := by
  constructor
  · intro h1 h2
    obtain ⟨e, he⟩ := Option.isSome_iff_exists.mp h1
    rcases h2 with h | h <;> simp [ActiveStream.endStream, he, h]
  · intro h
    rcases h with h | ⟨h1, h2⟩
    · simp [ActiveStream.endStream, h]
    · cases he : s.responseEncoder with
      | none => simp [ActiveStream.endStream, he]
      | some e => simp [ActiveStream.endStream, he, h1, h2]

/-- C7.  Request-data buffering (I6).  First conjunct: when a retry is
still possible (`retryState` present with `retryOn`), the engine forwards
upstream only a clone of the data (a fresh buffer carrying the same
bytes), while the original bytes are retained in `downstreamReqDataBuf`
(freshly allocated, or appended to the existing accumulator).  Second
conjunct: otherwise the original buffer itself is forwarded and nothing
is retained.  Third conjunct: `doRetry` encodes the buffered body from a
clone and never hands out the original buffer, which stays retained.
(The zero-timeout hypotheses keep the timer machinery from allocating
handle ids between the clone and the statement about it.) -/
theorem c7_request_buffering :
    (∀ (s : ActiveStream) (data : IoBuffer) (es : Bool) (rs : RetryStateM),
      s.localProcessDone = false → s.decodeDataFiltersStop = false →
      s.upstreamRequest.isSome = true → s.retryState = some rs → rs.retryOn = true →
      s.timeout.TryTimeout = 0 → s.timeout.GlobalTimeout = 0 →
      (s.doDecodeData data es).fst = [Event.upEncodeData ⟨s.freshId, data.content⟩ es] ∧
      (s.downstreamReqDataBuf = none →
        ∀ s1, (s.doDecodeData data es).snd = some s1 →
          s1.downstreamReqDataBuf = some ⟨s.freshId + 1, data.content⟩) ∧
      (∀ b, s.downstreamReqDataBuf = some b → b.id ≠ data.id →
        ∀ s1, (s.doDecodeData data es).snd = some s1 →
          s1.downstreamReqDataBuf = some ⟨b.id, b.content ++ data.content⟩)) ∧
    (∀ (s : ActiveStream) (data : IoBuffer) (es : Bool),
      s.localProcessDone = false → s.decodeDataFiltersStop = false →
      s.upstreamRequest.isSome = true →
      (s.retryState = none ∨ ∀ rs, s.retryState = some rs → rs.retryOn = false) →
      s.timeout.TryTimeout = 0 → s.timeout.GlobalTimeout = 0 →
      (s.doDecodeData data es).fst = [Event.upEncodeData data es] ∧
      (∀ s1, (s.doDecodeData data es).snd = some s1 →
        s1.downstreamReqDataBuf = s.downstreamReqDataBuf)) ∧
    (∀ (s : ActiveStream) (b : IoBuffer) (nm info : String) (p : Nat),
      s.cluster = some nm → s.clusterSnapshotO = some info → s.connPoolO = some p →
      s.downstreamReqDataBuf = some b → b.id ≠ s.freshId →
      Event.upEncodeData ⟨s.freshId, b.content⟩ s.downstreamReqTrailers.isNone ∈
        (s.doRetry).fst ∧
      (∀ es', Event.upEncodeData b es' ∉ (s.doRetry).fst) ∧
      (∀ s1, (s.doRetry).snd = some s1 → s1.downstreamReqDataBuf = some b)) := by
  refine ⟨?_, ?_, ?_⟩
  · intro s data es rs h1 h2 h3 h4 h5 h6 h7
    obtain ⟨u, hu⟩ := Option.isSome_iff_exists.mp h3
    refine ⟨?_, ?_, ?_⟩
    · cases hb : s.downstreamReqDataBuf with
      | none =>
        cases es <;>
          simp [ActiveStream.doDecodeData, ActiveStream.onUpstreamRequestSent,
            ActiveStream.setupPerTryTimeout, h1, h2, h4, h5, h6, h7, hu, hb]
      | some b =>
        by_cases hid : b.id = data.id <;> cases es <;>
          simp [ActiveStream.doDecodeData, ActiveStream.onUpstreamRequestSent,
            ActiveStream.setupPerTryTimeout, h1, h2, h4, h5, h6, h7, hu, hb, hid]
    · intro hb s1 hs1
      cases es <;>
        simp [ActiveStream.doDecodeData, ActiveStream.onUpstreamRequestSent,
          ActiveStream.setupPerTryTimeout, h1, h2, h4, h5, h6, h7, hu, hb] at hs1 <;>
        simp [← hs1]
    · intro b hb hbid s1 hs1
      cases es <;>
        simp [ActiveStream.doDecodeData, ActiveStream.onUpstreamRequestSent,
          ActiveStream.setupPerTryTimeout, h1, h2, h4, h5, h6, h7, hu, hb,
          hbid] at hs1 <;>
        simp [← hs1]
  · intro s data es h1 h2 h3 h4 h5 h6
    obtain ⟨u, hu⟩ := Option.isSome_iff_exists.mp h3
    have hbuf : (match s.retryState with
        | some rs => rs.retryOn
        | none => false) = false := by
      rcases h4 with h | h
      · simp [h]
      · cases hrs : s.retryState with
        | none => simp
        | some rs => simpa [hrs] using h rs hrs
    constructor
    · cases es <;>
        simp [ActiveStream.doDecodeData, ActiveStream.onUpstreamRequestSent,
          ActiveStream.setupPerTryTimeout, h1, h2, h5, h6, hu, hbuf]
    · intro s1 hs1
      cases es <;>
        simp [ActiveStream.doDecodeData, ActiveStream.onUpstreamRequestSent,
          ActiveStream.setupPerTryTimeout, h1, h2, h5, h6, hu, hbuf] at hs1 <;>
        simp [← hs1]
  · intro s b nm info p h1 h2 h3 h4 h5
    refine ⟨?_, ?_, ?_⟩
    · by_cases htt : 0 < s.timeout.TryTimeout <;> cases hpr : s.perRetryTimer <;>
        cases ht : s.downstreamReqTrailers <;>
        simp [ActiveStream.doRetry, ActiveStream.initUpstreamConnectionPool,
          ActiveStream.setupPerTryTimeout, h1, h2, h3, h4, ht, htt, hpr]
    · intro es'
      by_cases htt : 0 < s.timeout.TryTimeout <;> cases hpr : s.perRetryTimer <;>
        cases ht : s.downstreamReqTrailers <;>
        simp [ActiveStream.doRetry, ActiveStream.initUpstreamConnectionPool,
          ActiveStream.setupPerTryTimeout, h1, h2, h3, h4, h5, ht, htt, hpr]
      all_goals
        exact fun hEq => absurd (congrArg IoBuffer.id hEq) h5
    · intro s1 hs1
      by_cases htt : 0 < s.timeout.TryTimeout <;> cases hpr : s.perRetryTimer <;>
        simp [ActiveStream.doRetry, ActiveStream.initUpstreamConnectionPool,
          ActiveStream.setupPerTryTimeout, h1, h2, h3, h4, htt, hpr] at hs1 <;>
        simp [← hs1, h4]

/-- C8.  Once `localProcessDone` is true, late decode-data and
decode-trailer events are dropped: nothing is forwarded upstream (empty
trace), the only state change is the codec-side bookkeeping performed
before the drop check (`bytesReceived`, `downstreamRecvDone`), and
`localProcessDone` stays true, so all later decode events are dropped as
well. -/
theorem c8_late_decode_dropped (s : ActiveStream) (data : IoBuffer) (es : Bool) (t : Headers)
    (h : s.localProcessDone = true) :
    s.OnDecodeData data es =
      ([], some { s with bytesReceived := s.bytesReceived + data.content.length,
                         downstreamRecvDone := es }) ∧
    s.OnDecodeTrailers t = ([], some { s with downstreamRecvDone := true }) ∧
    (∀ s1, (s.OnDecodeData data es).snd = some s1 → s1.localProcessDone = true) ∧
    (∀ s1, (s.OnDecodeTrailers t).snd = some s1 → s1.localProcessDone = true) := by
  have h1 : s.OnDecodeData data es =
      ([], some { s with bytesReceived := s.bytesReceived + data.content.length,
                         downstreamRecvDone := es }) := by
    simp [ActiveStream.OnDecodeData, ActiveStream.doDecodeData, h]
  have h2 : s.OnDecodeTrailers t = ([], some { s with downstreamRecvDone := true }) := by
    simp [ActiveStream.OnDecodeTrailers, ActiveStream.doDecodeTrailers, h]
  refine ⟨h1, h2, ?_, ?_⟩
  · intro s1 hs1
    rw [h1] at hs1
    simp at hs1
    simp [← hs1, h]
  · intro s1 hs1
    rw [h2] at hs1
    simp at hs1
    simp [← hs1, h]

/-- C10.  Per-try-timer safety.  First conjunct: a per-try fire before the
downstream response started, with no live `UpstreamRequest`, is a nil
dereference (`onPerTryTimeout` has no guard, unlike `onResponseTimeout`),
so safety requires `upstreamRequest ≠ nil` at every such fire.  Second
conjunct: once the response started the fire is skipped entirely.  Third
conjunct: `setupRetry` nulls `upstreamRequest` but leaves the per-try
timer handle untouched — the dangerous window is real. -/
theorem c10_perTryTimeout_safety :
    (∀ s : ActiveStream, s.downstreamResponseStarted = false → s.cluster.isSome = true →
      s.upstreamRequest = none → s.onPerTryTimeout = ([], none)) ∧
    (∀ s : ActiveStream, s.downstreamResponseStarted = true →
      s.onPerTryTimeout = ([], some s)) ∧
    (∀ s : ActiveStream, s.upstreamRequestSent = true →
      s.setupRetry true = ([], some (true, { s with upstreamRequest := none })) ∧
      ({ s with upstreamRequest := none } : ActiveStream).perRetryTimer = s.perRetryTimer) := by
  refine ⟨?_, ?_, ?_⟩
  · intro s h1 h2 h3
    obtain ⟨c, hc⟩ := Option.isSome_iff_exists.mp h2
    simp [ActiveStream.onPerTryTimeout, h1, hc, h3]
  · intro s h1
    simp [ActiveStream.onPerTryTimeout, h1]
  · intro s h
    exact ⟨by simp [ActiveStream.setupRetry, h], rfl⟩

/-- A trace contains no upstream-attempt event (no upstream request
allocation and no request material encoded upstream). -/
def cleanTrace (ev : List Event) : Bool :=
  ev.all (fun e => !e.isUpstreamAttempt)

theorem cleanUp_cleanTrace (s : ActiveStream) : cleanTrace (s.cleanUp).fst = true := by
  cases hur : s.upstreamRequest with
  | none => simp [ActiveStream.cleanUp, hur, cleanTrace]
  | some ur =>
    cases hrs : s.retryState with
    | none => simp [ActiveStream.cleanUp, hur, hrs, cleanTrace]
    | some rs =>
      cases hbt : rs.backoffTimer <;> cases hpt : s.perRetryTimer <;>
        cases hrt : s.responseTimer <;>
        simp [ActiveStream.cleanUp, hur, hrs, RetryStateM.reset, hbt, hpt, hrt,
          cleanTrace, Event.isUpstreamAttempt]

theorem cleanStream_cleanTrace (s : ActiveStream) : cleanTrace (s.cleanStream).fst = true := by
  have h := cleanUp_cleanTrace s
  unfold ActiveStream.cleanStream
  rcases hmk : s.cleanUp with ⟨ev, o⟩
  rw [hmk] at h
  cases hur : s.upstreamRequest <;> cases o <;>
    simp_all [cleanTrace, Event.isUpstreamAttempt]

theorem endStream_cleanTrace (s : ActiveStream) : cleanTrace (s.endStream).fst = true := by
  unfold ActiveStream.endStream
  cases s.responseEncoder with
  | none => exact cleanStream_cleanTrace s
  | some e =>
    by_cases h : !s.downstreamRecvDone || !s.localProcessDone
    · simp [h, cleanTrace, Event.isUpstreamAttempt]
    · simp only [h, if_false]
      exact cleanStream_cleanTrace s

theorem doEncodeHeaders_cleanTrace (s : ActiveStream) (headers : Headers) (es : Bool) :
    cleanTrace (s.doEncodeHeaders headers es).fst = true := by
  unfold ActiveStream.doEncodeHeaders
  by_cases hf : s.encodeHeaderFiltersStop
  · simp [hf, cleanTrace]
  · cases s.responseEncoder with
    | none => simp [hf, cleanTrace]
    | some e =>
      cases es with
      | false => simp [hf, cleanTrace, Event.isUpstreamAttempt]
      | true =>
        have h := endStream_cleanTrace { s with localProcessDone := s.localProcessDone }
        simp only [hf, if_false, Bool.false_eq_true, mergeEv]
        rcases hmk : ActiveStream.endStream s with ⟨ev, o⟩
        have h2 := endStream_cleanTrace s
        rw [hmk] at h2
        simp_all [cleanTrace, Event.isUpstreamAttempt]

/-- The trace of a hijack reply contains no upstream-attempt event. -/
theorem sendHijackReply_cleanTrace (s : ActiveStream) (code : Nat) (headers : Headers) :
    cleanTrace (s.sendHijackReply code headers).fst = true := by
  unfold ActiveStream.sendHijackReply ActiveStream.encodeHeaders
  exact doEncodeHeaders_cleanTrace _ _ _

theorem find_setHdr_aux (k v : String) (l : Headers)
    (hl : l.any (fun p => p.fst = k) = true) :
    (l.map (fun p => if p.fst = k then (k, v) else p)).find?
      (fun p => p.fst = k) = some (k, v) := by
  induction l with
  | nil => simp at hl
  | cons x t ih =>
    by_cases hx : x.fst = k
    · simp [List.find?, hx]
    · simp only [List.any_cons, Bool.or_eq_true, decide_eq_true_eq] at hl
      rcases hl with h | h
      · exact absurd h hx
      · rw [List.map_cons, if_neg hx, List.find?_cons_of_neg _ (by simpa using hx)]
        exact ih h

/-- Writing a header and reading it back yields the written value. -/
theorem getHdr_setHdr (l : Headers) (k v : String) :
    getHdr (setHdr l k v) k = some v := by
  unfold getHdr setHdr
  by_cases hl : l.any (fun p => p.fst = k) = true
  · rw [if_pos hl, find_setHdr_aux k v l hl]
    rfl
  · rw [if_neg hl]
    simp [List.find?]

/-- C9.  `OnDecodeError` maps the error kind to a hijack reply: the first
observable effect is a downstream header frame (with `endStream = true`)
whose status header carries `CodecExceptionCode` for a codec exception,
`DeserialExceptionCode` for a deserialize exception, and `UnknownCode`
otherwise; and the whole run makes no upstream attempt — no
`UpstreamRequest` is allocated and nothing is encoded upstream. -/
theorem c9_onDecodeError_hijack (s : ActiveStream) (err : String) (headers : Headers)
    (h1 : s.encodeHeaderFiltersStop = false)
    (h2 : s.responseEncoder.isSome = true) :
    (err = CodecException →
      (s.OnDecodeError err headers).fst.head? =
        some (Event.downEncodeHeaders
          (setHdr headers HeaderStatus (toString CodecExceptionCode)) true) ∧
      getHdr (setHdr headers HeaderStatus (toString CodecExceptionCode)) HeaderStatus =
        some (toString CodecExceptionCode)) ∧
    (err = DeserializeException →
      (s.OnDecodeError err headers).fst.head? =
        some (Event.downEncodeHeaders
          (setHdr headers HeaderStatus (toString DeserialExceptionCode)) true) ∧
      getHdr (setHdr headers HeaderStatus (toString DeserialExceptionCode)) HeaderStatus =
        some (toString DeserialExceptionCode)) ∧
    (err ≠ CodecException → err ≠ DeserializeException →
      (s.OnDecodeError err headers).fst.head? =
        some (Event.downEncodeHeaders
          (setHdr headers HeaderStatus (toString UnknownCode)) true) ∧
      getHdr (setHdr headers HeaderStatus (toString UnknownCode)) HeaderStatus =
        some (toString UnknownCode)) ∧
    cleanTrace (s.OnDecodeError err headers).fst = true := by
  obtain ⟨e, he⟩ := Option.isSome_iff_exists.mp h2
  have hhead : ∀ code : Nat,
      (s.sendHijackReply code headers).fst.head? =
        some (Event.downEncodeHeaders (setHdr headers HeaderStatus (toString code)) true) := by
    intro code
    unfold ActiveStream.sendHijackReply ActiveStream.encodeHeaders ActiveStream.doEncodeHeaders
    simp [h1, he, mergeEv]
  refine ⟨?_, ?_, ?_, ?_⟩
  · intro hc
    subst hc
    exact ⟨by simpa [ActiveStream.OnDecodeError] using hhead CodecExceptionCode,
      getHdr_setHdr headers HeaderStatus (toString CodecExceptionCode)⟩
  · intro hc
    subst hc
    refine ⟨?_, getHdr_setHdr headers HeaderStatus (toString DeserialExceptionCode)⟩
    have hne : DeserializeException ≠ CodecException := by decide
    simpa [ActiveStream.OnDecodeError, hne] using hhead DeserialExceptionCode
  · intro hc hd
    refine ⟨?_, getHdr_setHdr headers HeaderStatus (toString UnknownCode)⟩
    simpa [ActiveStream.OnDecodeError, hc, hd] using hhead UnknownCode
  · unfold ActiveStream.OnDecodeError
    by_cases hc : err = CodecException
    · simp only [hc, if_pos rfl]
      exact sendHijackReply_cleanTrace s CodecExceptionCode headers
    · by_cases hd : err = DeserializeException
      · simp [hc, hd]
        have := sendHijackReply_cleanTrace s DeserialExceptionCode headers
        simpa using this
      · simp [hc, hd]
        have := sendHijackReply_cleanTrace s UnknownCode headers
        simpa using this

/-! ## Witness states -/

/-- A stream with everything armed, ready for `cleanUp`. -/
def cleanableStream : ActiveStream :=
  { upstreamRequest := some { requestEncoder := some 5 },
    retryState := some { retryOn := true, backoffTimer := some 3,
                         verdict := RetryCheck.NoRetry },
    perRetryTimer := some 1, responseTimer := some 2 }

/-- `cleanableStream` after one `cleanUp`. -/
def cleanedStream : ActiveStream :=
  { upstreamRequest := some { requestEncoder := none },
    retryState := some { retryOn := true, backoffTimer := none,
                         verdict := RetryCheck.NoRetry },
    perRetryTimer := none, responseTimer := none }

/-- A stream whose upstream request was sent and is still live. -/
def sentLiveStream : ActiveStream :=
  { upstreamRequestSent := true, upstreamRequest := some { requestEncoder := some 9 } }

/-- A stream still mid-request (abnormal end case of `endStream`). -/
def abnormalEndStream : ActiveStream := { responseEncoder := some 0 }

/-- A stream that finished both sides (normal end case of `endStream`). -/
def normalEndStream : ActiveStream :=
  { responseEncoder := some 0, downstreamRecvDone := true, localProcessDone := true,
    upstreamRequest := some { requestEncoder := none },
    retryState := some { retryOn := false, backoffTimer := none,
                         verdict := RetryCheck.NoRetry } }

/-- A stream in the middle of its decode phase with a retry still
possible. -/
def bufferingStream : ActiveStream :=
  { retryState := some { retryOn := true, backoffTimer := none,
                         verdict := RetryCheck.NoRetry },
    upstreamRequest := some { requestEncoder := some 1 } }

/-- A retry in flight with a buffered body and no trailers. -/
def retryWithBody : ActiveStream :=
  { cluster := some "server_1", clusterSnapshotO := some "server_1", connPoolO := some 1,
    downstreamReqDataBuf := some ⟨5, [9]⟩ }

/-- A stream whose local processing is done (post hijack). -/
def doneStream : ActiveStream := { localProcessDone := true }

/-- A fresh stream with a response encoder, about to hijack. -/
def hijackReady : ActiveStream := { responseEncoder := some 0 }

/-- A per-try fire with a cluster bound but no live upstream request. -/
def timedOutNoUpstream : ActiveStream := { cluster := some "server_1" }

/-- A stream whose downstream response already started. -/
def respStartedStream : ActiveStream := { downstreamResponseStarted := true }

/-- Retry set up from a sent request (per-try timer armed). -/
def sentArmedStream : ActiveStream :=
  { upstreamRequestSent := true, upstreamRequest := some { requestEncoder := some 9 },
    perRetryTimer := some 11 }

/-! ## Witnesses -/

/-- C4 witness: a concrete `cleanUp` succeeds, and the theorem then gives
that the second `cleanUp` is a no-op. -/
theorem c4_cleanUp_idempotent_witness :
    ActiveStream.cleanUp cleanableStream =
      ([Event.timerStop 3, Event.timerStop 1, Event.timerStop 2], some cleanedStream) ∧
    ActiveStream.cleanUp cleanedStream = ([], some cleanedStream) :=
  ⟨by decide,
   (c4_cleanUp_idempotent cleanableStream cleanedStream
      [Event.timerStop 3, Event.timerStop 1, Event.timerStop 2] (by decide)).1⟩

/-- C5 witness: a live sent attempt, `endStream = false`: the upstream
stream is reset and the request nulled; return value is true. -/
theorem c5_setupRetry_spec_witness :
    ActiveStream.setupRetry sentLiveStream false =
      ([Event.upResetStream], some (true, { sentLiveStream with upstreamRequest := none })) :=
  (c5_setupRetry_spec sentLiveStream false).2.2 rfl rfl (by decide)

/-- C6 witness: both branches of `endStream` at concrete streams. -/
theorem c6_endStream_spec_witness :
    ActiveStream.endStream abnormalEndStream =
      ([Event.downResetStream ResetReason.LocalReset],
        some { abnormalEndStream with localProcessDone := true }) ∧
    ActiveStream.endStream normalEndStream = ActiveStream.cleanStream normalEndStream :=
  ⟨(c6_endStream_spec abnormalEndStream).1 (by decide) (Or.inl rfl),
   (c6_endStream_spec normalEndStream).2 (Or.inr ⟨rfl, rfl⟩)⟩

/-- C7 witness: with a retry possible a clone (fresh id 100) of the
incoming buffer (id 7) is forwarded; in `doRetry` the clone of the
buffered body (id 5) is encoded. -/
theorem c7_request_buffering_witness :
    (ActiveStream.doDecodeData bufferingStream ⟨7, [1, 2, 3]⟩ false).fst =
      [Event.upEncodeData ⟨100, [1, 2, 3]⟩ false] ∧
    Event.upEncodeData ⟨100, [9]⟩ true ∈ (ActiveStream.doRetry retryWithBody).fst :=
  ⟨(c7_request_buffering.1 bufferingStream ⟨7, [1, 2, 3]⟩ false
      { retryOn := true, backoffTimer := none, verdict := RetryCheck.NoRetry }
      rfl rfl rfl rfl rfl rfl rfl).1,
   (c7_request_buffering.2.2 retryWithBody ⟨5, [9]⟩ "server_1" "server_1" 1
      rfl rfl rfl rfl (by decide)).1⟩

/-- C8 witness: a late data event on a locally-done stream is dropped. -/
theorem c8_late_decode_dropped_witness :
    ActiveStream.OnDecodeData doneStream ⟨1, [2]⟩ false =
      ([], some { doneStream with bytesReceived := 1, downstreamRecvDone := false }) :=
  (c8_late_decode_dropped doneStream ⟨1, [2]⟩ false [] rfl).1

/-- C9 witness: a deserialize exception hijacks with
`DeserialExceptionCode` in the status header and makes no upstream
attempt. -/
theorem c9_onDecodeError_hijack_witness :
    (ActiveStream.OnDecodeError hijackReady DeserializeException []).fst.head? =
      some (Event.downEncodeHeaders [("x-mosn-header-status", "471")] true) ∧
    cleanTrace (ActiveStream.OnDecodeError hijackReady DeserializeException []).fst = true :=
  ⟨((c9_onDecodeError_hijack hijackReady DeserializeException [] rfl rfl).2.1 rfl).1,
   (c9_onDecodeError_hijack hijackReady DeserializeException [] rfl rfl).2.2.2⟩

/-- C10 witness: the per-try fire panics at a concrete request-less
stream, is skipped once the response started, and `setupRetry` leaves the
armed per-try timer in place. -/
theorem c10_perTryTimeout_safety_witness :
    ActiveStream.onPerTryTimeout timedOutNoUpstream = ([], none) ∧
    ActiveStream.onPerTryTimeout respStartedStream = ([], some respStartedStream) ∧
    ActiveStream.setupRetry sentArmedStream true =
      ([], some (true, { sentArmedStream with upstreamRequest := none })) :=
  ⟨c10_perTryTimeout_safety.1 timedOutNoUpstream rfl rfl rfl,
   c10_perTryTimeout_safety.2.1 respStartedStream rfl,
   (c10_perTryTimeout_safety.2.2 sentArmedStream rfl).1⟩

end Mosn
